import Mathlib

/-!
Shallow embedding of `mesona/proxy.py`, a TLS man-in-the-middle relay with
optional length hiding.  Pure logic (padding clamping, address-family
heuristic, startup loop) is embedded as Lean functions; the effectful
forwarding and teardown paths are embedded as trace-producing functions over
explicit outcome parameters (which primitive calls succeed or fail).
-/

namespace Mesona

/-! ## Exceptions

The source distinguishes the TLS library's `GNUTLSError` (wrapped into
`ReaderError` / `WriterError` by the forwarding helpers), the proxy's own
`ReaderError` and `WriterError`, `RuntimeError` raised by the length-hiding
capability checks, and arbitrary other exceptions. -/

inductive Exc where
  | gnutlsError
  | readerError
  | writerError
  | runtimeError
  | otherError
  deriving DecidableEq

/-! ## Padding policy (`send_range_safe`)

Source:
```
def send_range_safe(dst, data, range_low, range_high):
    range_low = max(range_low, 1 - len(data))
    range_high = range_high
    dst.send_range(data, (range_low, range_high))
```
We record the arguments of the resulting `dst.send_range` call. -/

structure RangeSend where
  dataLen : Nat
  range_low : Int
  range_high : Int
  deriving DecidableEq

/-- Embedding of `send_range_safe`: clamp the configured lower bound to
`1 - len(data)` and pass the effective range to the destination. -/
def send_range_safe (dataLen : Nat) (range_low range_high : Int) : RangeSend :=
  { dataLen := dataLen
  , range_low := max range_low (1 - (dataLen : Int))
  , range_high := range_high }

/-- Total on-wire length when the underlying padded-send primitive chooses
padding amount `p` from the range it was passed. -/
def wire_length (call : RangeSend) (p : Int) : Int :=
  (call.dataLen : Int) + p

/-! ## Forwarding loop (`connection_reader`, `forward_connection`,
`forward_connection_with_padding`)

`connection_reader` wraps a `GNUTLSError` from `src.recv` into `ReaderError`
and stops on a zero-length read; the forward loops wrap a `GNUTLSError` from
the send into `WriterError`.  Any other exception type propagates unchanged.
The runtime behaviour of the source/destination endpoints is an explicit
parameter: a list of read events and a list of per-write results. -/

inductive ReadEvent where
  | chunk (n : Nat)
  | eof
  | err (e : Exc)
  deriving DecidableEq

inductive FlowOutcome where
  | cleanEof
  | raised (e : Exc)
  deriving DecidableEq

/-- The `except GNUTLSError ... raise ReaderError` clause of
`connection_reader`. -/
def wrap_reader (e : Exc) : Exc :=
  if e = Exc.gnutlsError then Exc.readerError else e

/-- The `except GNUTLSError ... raise WriterError` clause of
`forward_connection` / `forward_connection_with_padding`. -/
def wrap_writer (e : Exc) : Exc :=
  if e = Exc.gnutlsError then Exc.writerError else e

/-- One forwarding direction: read chunks until EOF or a read error, writing
each chunk and stopping at the first write error.  `ev` gives the successive
results of `src.recv`; `ws` gives the successive results of the writes
(`none` = success). -/
def forward_loop : List ReadEvent → List (Option Exc) → FlowOutcome
  | [], _ => FlowOutcome.cleanEof
  | ReadEvent.eof :: _, _ => FlowOutcome.cleanEof
  | ReadEvent.err e :: _, _ => FlowOutcome.raised (wrap_reader e)
  | ReadEvent.chunk _ :: rest, [] => forward_loop rest []
  | ReadEvent.chunk _ :: rest, none :: ws => forward_loop rest ws
  | ReadEvent.chunk _ :: _, some e :: _ => FlowOutcome.raised (wrap_writer e)

/-! ## Teardown traces

The near endpoint is `self.session` (server-role, faces the real client); the
far endpoint is `self.remote` (client-role, faces the real destination). -/

inductive Side where
  | near
  | far
  deriving DecidableEq

inductive Action where
  | bye (s : Side)
  | shutdown (s : Side)
  | close (s : Side)
  | logError
  deriving DecidableEq

/-- Trace of `MITMHandler.say_bye_to_remote`. -/
def say_bye_to_remote_trace : List Action := [Action.bye Side.far]

/-- Trace of `MITMHandler.close_remote`. -/
def close_remote_trace : List Action := [Action.shutdown Side.far, Action.close Side.far]

/-- Trace of `MITMHandler.say_bye_to_origin`. -/
def say_bye_to_origin_trace : List Action := [Action.bye Side.near]

/-- Trace of `ForwardingThread.say_bye_to_dst` (its dst is the near
endpoint, `self.session`). -/
def say_bye_to_dst_trace : List Action := [Action.bye Side.near]

/-- Trace of `ForwardingThread.close_dst`. -/
def close_dst_trace : List Action := [Action.shutdown Side.near, Action.close Side.near]

/-- Embedding of `MITMHandler.handle`: run the near-to-far forwarding loop,
then tear down according to the `except ReaderError` / `except WriterError` /
`else` clauses.  Returns the teardown trace and the propagated exception.
Exceptions other than `ReaderError` and `WriterError` match no clause, so
they propagate with no teardown at all. -/
def handle (ev : List ReadEvent) (ws : List (Option Exc)) : List Action × Option Exc :=
  match forward_loop ev ws with
  | FlowOutcome.cleanEof =>
      (say_bye_to_remote_trace ++ close_remote_trace ++ say_bye_to_origin_trace, none)
  | FlowOutcome.raised Exc.readerError =>
      (say_bye_to_remote_trace ++ close_remote_trace, some Exc.readerError)
  | FlowOutcome.raised Exc.writerError =>
      (close_remote_trace ++ say_bye_to_origin_trace, some Exc.writerError)
  | FlowOutcome.raised e => ([], some e)

/-- Embedding of `ForwardingThread.run`: run the far-to-near forwarding loop;
on any exception call `self.server.print_exc()` (`logError`; the printing may
be suppressed by configuration), on clean EOF call `say_bye_to_dst`; in both
cases finish with `close_dst`. -/
def forwarding_run (ev : List ReadEvent) (ws : List (Option Exc)) : List Action :=
  (match forward_loop ev ws with
   | FlowOutcome.cleanEof => say_bye_to_dst_trace
   | FlowOutcome.raised _ => [Action.logError]) ++ close_dst_trace

/-- An endpoint-error event carries only a `GNUTLSError` (the TLS library's
error type, the only failure the endpoints' recv raises in the model where
no foreign exception occurs). -/
def event_gnutls_only : ReadEvent → Bool
  | ReadEvent.err e => e = Exc.gnutlsError
  | _ => true

/-- A write result is either success or a `GNUTLSError`. -/
def write_gnutls_only : Option Exc → Bool
  | some e => e = Exc.gnutlsError
  | none => true

/-! ## Teardown helpers under primitive failure

Each helper wraps some primitive calls in `try: ... except: pass` but, in
`close_remote` and `close_dst`, the final `self.*.close()` sits OUTSIDE the
`try` block.  We model each underlying primitive by a flag saying whether it
raises, and each helper by the exception (if any) escaping it. -/

/-- A primitive teardown call: raises some exception iff `fails`. -/
def prim_call (fails : Bool) : Option Exc :=
  if fails then some Exc.otherError else none

/-- Python `try: body except: pass` — whatever the body raises is swallowed. -/
def try_except_pass (_body : Option Exc) : Option Exc := none

/-- Embedding of `MITMHandler.say_bye_to_remote`: `self.remote.bye()` inside
`try/except: pass`. -/
def say_bye_to_remote (bye_fails : Bool) : Option Exc :=
  try_except_pass (prim_call bye_fails)

/-- Embedding of `MITMHandler.say_bye_to_origin`: `self.session.bye()` inside
`try/except: pass`. -/
def say_bye_to_origin (bye_fails : Bool) : Option Exc :=
  try_except_pass (prim_call bye_fails)

/-- Embedding of `ForwardingThread.say_bye_to_dst`: `self.dst.bye()` inside
`try/except: pass`. -/
def say_bye_to_dst (bye_fails : Bool) : Option Exc :=
  try_except_pass (prim_call bye_fails)

/-- Embedding of `MITMHandler.close_remote`: `self.remote.shutdown()` inside
`try/except: pass`, then `self.remote.close()` outside any handler. -/
def close_remote (shutdown_fails close_fails : Bool) : Option Exc :=
  match try_except_pass (prim_call shutdown_fails) with
  | some e => some e
  | none => prim_call close_fails

/-- Embedding of `ForwardingThread.close_dst`: `self.dst.shutdown()` inside
`try/except: pass`, then `self.dst.close()` outside any handler. -/
def close_dst (shutdown_fails close_fails : Bool) : Option Exc :=
  match try_except_pass (prim_call shutdown_fails) with
  | some e => some e
  | none => prim_call close_fails

/-! ## Session establishment (`MITMHandler.setup`)

`setup` runs, in order: `handshake_with_client` (creates `self.session` and
handshakes), optional `verify_client_identity`, optional near length-hiding
check, `build_server_connection` (creates the socket, constructs
`self.remote` — the far endpoint —, connects, handshakes), optional
`verify_server_identity`, optional far length-hiding check, and finally
`start_forwarding_thread`.  Any exception aborts the sequence at that point.
We record the trace of attempted operations; `releaseNear` / `releaseFar`
are the explicit endpoint-release operations the design calls for, so their
absence from every trace is visible. -/

structure Config where
  verify_client_identity : Bool
  use_length_hiding_with_client : Bool
  verify_server_identity : Bool
  use_length_hiding_with_server : Bool
  deriving DecidableEq

structure SetupEnv where
  near_handshake_ok : Bool
  near_verify_ok : Bool
  session_can_use_length_hiding : Bool
  socket_ok : Bool
  connect_ok : Bool
  far_handshake_ok : Bool
  far_verify_ok : Bool
  remote_can_use_length_hiding : Bool
  deriving DecidableEq

inductive SetupEvent where
  | nearHandshake
  | nearVerifyPeer
  | nearLhCheck
  | createFarSession
  | farConnect
  | farHandshake
  | farVerifyPeer
  | farLhCheck
  | startForwardingThread
  | releaseNear
  | releaseFar
  deriving DecidableEq

/-- Embedding of `MITMHandler.setup`: the trace of attempted operations and
whether the sequence aborted (an exception escaped `setup`). -/
def setup (cfg : Config) (env : SetupEnv) : List SetupEvent × Bool :=
  if !env.near_handshake_ok then ([SetupEvent.nearHandshake], true)
  else if cfg.verify_client_identity && !env.near_verify_ok then
    ([SetupEvent.nearHandshake, SetupEvent.nearVerifyPeer], true)
  else
    let tr1 := [SetupEvent.nearHandshake]
      ++ (if cfg.verify_client_identity then [SetupEvent.nearVerifyPeer] else [])
    if cfg.use_length_hiding_with_client && !env.session_can_use_length_hiding then
      (tr1 ++ [SetupEvent.nearLhCheck], true)
    else
      let tr2 := tr1
        ++ (if cfg.use_length_hiding_with_client then [SetupEvent.nearLhCheck] else [])
      if !env.socket_ok then (tr2, true)
      else
        let tr3 := tr2 ++ [SetupEvent.createFarSession]
        if !env.connect_ok then (tr3 ++ [SetupEvent.farConnect], true)
        else
          let tr4 := tr3 ++ [SetupEvent.farConnect]
          if !env.far_handshake_ok then (tr4 ++ [SetupEvent.farHandshake], true)
          else
            let tr5 := tr4 ++ [SetupEvent.farHandshake]
            if cfg.verify_server_identity && !env.far_verify_ok then
              (tr5 ++ [SetupEvent.farVerifyPeer], true)
            else
              let tr6 := tr5
                ++ (if cfg.verify_server_identity then [SetupEvent.farVerifyPeer] else [])
              if cfg.use_length_hiding_with_server && !env.remote_can_use_length_hiding then
                (tr6 ++ [SetupEvent.farLhCheck], true)
              else
                let tr7 := tr6
                  ++ (if cfg.use_length_hiding_with_server then [SetupEvent.farLhCheck] else [])
                (tr7 ++ [SetupEvent.startForwardingThread], false)

/-! ## Address-family heuristic (`is_ipv6_address`) and dialing

Source:
```
def is_ipv6_address(address):
    ip_address = address[0]
    return ip_address.startswith('[') and ip_address.endswith(']')
```
and in `build_server_connection` the socket family is `AF_INET6` with the
brackets stripped (`server_address[0][1:-1]`) iff this predicate holds,
`AF_INET` with the host unchanged otherwise.  `MITMServer.__init__` sets the
listener family by the same predicate on the listen address. -/

/-- Python `s.startswith(c)` for a one-character pattern. -/
def pystartswith : List Char → Char → Bool
  | [], _ => false
  | a :: _, c => a = c

/-- Python `s.endswith(c)` for a one-character pattern. -/
def pyendswith (s : List Char) (c : Char) : Bool :=
  match s.getLast? with
  | none => false
  | some a => a = c

/-- Embedding of `is_ipv6_address`; an address is a host string and a port. -/
def is_ipv6_address (address : List Char × Nat) : Bool :=
  pystartswith address.1 '[' && pyendswith address.1 ']'

/-- The family/host decision of `build_server_connection`: `ipv6 = true`
means an `AF_INET6` socket, and `connect_host` is what is passed to
`self.remote.connect` (brackets stripped in the IPv6 case, via
`server_address[0][1:-1]`). -/
structure DialPlan where
  ipv6 : Bool
  connect_host : List Char
  deriving DecidableEq

/-- Embedding of the dialing decisions of `MITMHandler.build_server_connection`. -/
def build_dial_plan (server_address : List Char × Nat) : DialPlan :=
  if is_ipv6_address server_address then
    { ipv6 := true, connect_host := (server_address.1.drop 1).dropLast }
  else
    { ipv6 := false, connect_host := server_address.1 }

/-- Embedding of the address-family choice in `MITMServer.__init__`:
`AF_INET6` iff `is_ipv6_address(config.listen_address)`, else the
`TCPServer` default `AF_INET`. -/
def mitm_server_ipv6 (listen_address : List Char × Nat) : Bool :=
  if is_ipv6_address listen_address then true else false

/-! ## Startup loop (`__main__`)

For each configured relay the supervisor tries `MITMServer(config)`; on
failure it reports and `continue`s, otherwise starts the server.  After the
loop, `sys.exit(1)` iff no server started; otherwise the process eventually
exits 0 via the interrupt handler.  A relay is modelled by a key and whether
its `MITMServer` construction succeeds. -/

/-- The construction loop of `__main__`: keys of the relays whose
`MITMServer(config)` succeeded, in configuration order. -/
def startup_loop : List (Nat × Bool) → List Nat
  | [] => []
  | (key, ok) :: rest =>
      if ok then key :: startup_loop rest else startup_loop rest

/-- Exit status of `__main__`: 1 via `sys.exit(1)` iff zero relays started,
otherwise 0 (the interrupt handler calls `sys.exit(0)`). -/
def main_exit_status (relays : List (Nat × Bool)) : Nat :=
  if startup_loop relays = [] then 1 else 0

/-! ## Theorems -/

/-- C1: for every chunk length `L ≥ 0` and configured range `(low, high)`
with `low ≤ high`, `send_range_safe` passes the destination the effective
range `[max(low, 1 - L), high]`, so whatever padding `p` the primitive draws
from that range, the on-wire length `L + p` lies in
`[L + max(low, 1 - L), L + high]` and is at least 1 byte. -/
theorem c1_padding_floor (L : Nat) (low high : Int) (_hlh : low ≤ high) :
    (send_range_safe L low high).range_low = max low (1 - (L : Int))
    ∧ (send_range_safe L low high).range_high = high
    ∧ ∀ p : Int,
        (send_range_safe L low high).range_low ≤ p →
        p ≤ (send_range_safe L low high).range_high →
        ((L : Int) + max low (1 - (L : Int)) ≤ wire_length (send_range_safe L low high) p
         ∧ wire_length (send_range_safe L low high) p ≤ (L : Int) + high
         ∧ 1 ≤ wire_length (send_range_safe L low high) p) := by
  refine ⟨rfl, rfl, ?_⟩
  intro p hp1 hp2
  simp only [send_range_safe, wire_length] at *
  have h1 : 1 - (L : Int) ≤ max low (1 - (L : Int)) := le_max_right _ _
  omega

/-- C1 witness: the spec's example `L = 0, low = -5` yields effective lower
bound 1 and on-wire length at least 1. -/
theorem c1_padding_floor_witness :
    (send_range_safe 0 (-5) 3).range_low = 1
    ∧ 1 ≤ wire_length (send_range_safe 0 (-5) 3) 1
    ∧ wire_length (send_range_safe 0 (-5) 3) 1 ≤ (0 : Int) + 3 := by
  have h := c1_padding_floor 0 (-5) 3 (by decide)
  refine ⟨?_, ?_, ?_⟩
  · rw [h.1]; decide
  · exact (h.2.2 1 (by decide) (by decide)).2.2
  · exact (h.2.2 1 (by decide) (by decide)).2.1

/-- C2: in `MITMHandler.handle`, a failed source read surfaces as
`ReaderError` and a failed destination write as `WriterError`, always
distinguished; on `ReaderError` the far endpoint gets close-notify then
shutdown+close, nothing is done to the near endpoint, and the error
propagates; on `WriterError` the far endpoint gets shutdown+close without
close-notify, the near endpoint gets close-notify, and the error propagates;
on clean EOF the far endpoint gets close-notify then shutdown+close and the
near endpoint close-notify only. -/
theorem c2_handle_error_taxonomy (rest : List ReadEvent) (ws : List (Option Exc)) (n : Nat) :
    handle (ReadEvent.eof :: rest) ws
      = ([Action.bye Side.far, Action.shutdown Side.far, Action.close Side.far,
          Action.bye Side.near], none)
    ∧ handle (ReadEvent.err Exc.gnutlsError :: rest) ws
      = ([Action.bye Side.far, Action.shutdown Side.far, Action.close Side.far],
         some Exc.readerError)
    ∧ handle (ReadEvent.chunk n :: rest) (some Exc.gnutlsError :: ws)
      = ([Action.shutdown Side.far, Action.close Side.far, Action.bye Side.near],
         some Exc.writerError)
    ∧ wrap_reader Exc.gnutlsError = Exc.readerError
    ∧ wrap_writer Exc.gnutlsError = Exc.writerError
    ∧ Exc.readerError ≠ Exc.writerError := by
  refine ⟨rfl, rfl, rfl, rfl, rfl, by decide⟩

/-- C4: `ForwardingThread.run` (the far-to-near flow) on clean EOF sends
close-notify to its destination (the near endpoint) then shutdown+close; on
any error, read or write, it calls the logger and performs shutdown+close
without close-notify; and in every outcome it performs no close-notify,
shutdown or close on the far endpoint it reads from. -/
theorem c4_forwarding_thread_teardown
    (rest ev2 : List ReadEvent) (ws ws2 : List (Option Exc)) (n : Nat) (e : Exc) :
    forwarding_run (ReadEvent.eof :: rest) ws
      = [Action.bye Side.near, Action.shutdown Side.near, Action.close Side.near]
    ∧ forwarding_run (ReadEvent.err e :: rest) ws
      = [Action.logError, Action.shutdown Side.near, Action.close Side.near]
    ∧ forwarding_run (ReadEvent.chunk n :: rest) (some e :: ws)
      = [Action.logError, Action.shutdown Side.near, Action.close Side.near]
    ∧ (forwarding_run ev2 ws2).count (Action.bye Side.far) = 0
    ∧ (forwarding_run ev2 ws2).count (Action.shutdown Side.far) = 0
    ∧ (forwarding_run ev2 ws2).count (Action.close Side.far) = 0 := by
  refine ⟨rfl, ?_, ?_, ?_, ?_, ?_⟩
  · show forwarding_run (ReadEvent.err e :: rest) ws = _
    simp only [forwarding_run, forward_loop]
    rfl
  · rfl
  all_goals
    unfold forwarding_run
    cases forward_loop ev2 ws2 <;> rfl

/-- C6 counterexample: the claim says every teardown helper swallows every
failure of the underlying bye/shutdown/close primitives, but the final
`close()` call in `close_remote` and `close_dst` sits outside the `try`
block, so a failing close primitive raises out of these helpers. -/
theorem c6_close_counterexample :
    close_remote false true = some Exc.otherError
    ∧ close_dst false true = some Exc.otherError := by
  decide

/-- C6 amended: teardown is best-effort for the bye and shutdown primitives
— the three say-bye helpers never raise, and `close_remote` / `close_dst`
swallow a shutdown failure — but a failure of the final close primitive
itself propagates out of `close_remote` / `close_dst` (they raise iff the
close primitive fails). -/
theorem c6_teardown_best_effort (b sf cf : Bool) :
    say_bye_to_remote b = none
    ∧ say_bye_to_origin b = none
    ∧ say_bye_to_dst b = none
    ∧ (close_remote sf cf = none ↔ cf = false)
    ∧ (close_dst sf cf = none ↔ cf = false) := by
  cases b <;> cases sf <;> cases cf <;> decide

/-- When every read failure and write failure of a forwarding direction is a
`GNUTLSError` (the TLS library's error type), the loop ends in clean EOF, a
`ReaderError`, or a `WriterError`. -/
theorem forward_loop_gnutls_only (ev : List ReadEvent) :
    ∀ ws : List (Option Exc),
      ev.all event_gnutls_only = true → ws.all write_gnutls_only = true →
      forward_loop ev ws = FlowOutcome.cleanEof
      ∨ forward_loop ev ws = FlowOutcome.raised Exc.readerError
      ∨ forward_loop ev ws = FlowOutcome.raised Exc.writerError := by
  induction ev with
  | nil => intro ws _ _; exact Or.inl rfl
  | cons e rest ih =>
    intro ws h1 h2
    rw [List.all_cons, Bool.and_eq_true] at h1
    cases e with
    | eof => exact Or.inl rfl
    | err ex =>
      have hex : ex = Exc.gnutlsError := by
        have := h1.1
        simp only [event_gnutls_only, decide_eq_true_eq] at this
        exact this
      subst hex
      exact Or.inr (Or.inl rfl)
    | chunk n =>
      cases ws with
      | nil => exact ih [] h1.2 rfl
      | cons w ws2 =>
        rw [List.all_cons, Bool.and_eq_true] at h2
        cases w with
        | none => exact ih ws2 h1.2 h2.2
        | some ex =>
          have hex : ex = Exc.gnutlsError := by
            have := h2.1
            simp only [write_gnutls_only, decide_eq_true_eq] at this
            exact this
          subst hex
          exact Or.inr (Or.inr rfl)

/-- C3: provided the endpoints fail only with the TLS library's error type,
the inline near-to-far flow (`handle`) closes the far endpoint exactly once
and never the near one, the dedicated far-to-near flow (`forwarding_run`)
closes the near endpoint exactly once and never the far one, and across the
two flows of a connection each endpoint's terminal close is issued exactly
once. -/
theorem c3_close_ownership
    (ev ev2 : List ReadEvent) (ws ws2 : List (Option Exc))
    (h1 : ev.all event_gnutls_only = true) (h2 : ws.all write_gnutls_only = true) :
    (handle ev ws).1.count (Action.close Side.far) = 1
    ∧ (handle ev ws).1.count (Action.close Side.near) = 0
    ∧ (forwarding_run ev2 ws2).count (Action.close Side.near) = 1
    ∧ (forwarding_run ev2 ws2).count (Action.close Side.far) = 0
    ∧ ((handle ev ws).1 ++ forwarding_run ev2 ws2).count (Action.close Side.far) = 1
    ∧ ((handle ev ws).1 ++ forwarding_run ev2 ws2).count (Action.close Side.near) = 1 := by
  have hfar : (handle ev ws).1.count (Action.close Side.far) = 1
      ∧ (handle ev ws).1.count (Action.close Side.near) = 0 := by
    rcases forward_loop_gnutls_only ev ws h1 h2 with h | h | h <;>
      · unfold handle
        rw [h]
        exact ⟨rfl, rfl⟩
  have hnear : (forwarding_run ev2 ws2).count (Action.close Side.near) = 1
      ∧ (forwarding_run ev2 ws2).count (Action.close Side.far) = 0 := by
    unfold forwarding_run
    cases forward_loop ev2 ws2 <;> exact ⟨rfl, rfl⟩
  refine ⟨hfar.1, hfar.2, hnear.1, hnear.2, ?_, ?_⟩ <;>
    rw [List.count_append] <;> omega

/-- C3 witness: a concrete connection in which both flows end in clean EOF. -/
theorem c3_close_ownership_witness :
    (handle [ReadEvent.eof] []).1.count (Action.close Side.far) = 1
    ∧ (handle [ReadEvent.eof] []).1.count (Action.close Side.near) = 0
    ∧ (forwarding_run [ReadEvent.eof] []).count (Action.close Side.near) = 1
    ∧ (forwarding_run [ReadEvent.eof] []).count (Action.close Side.far) = 0
    ∧ ((handle [ReadEvent.eof] []).1 ++ forwarding_run [ReadEvent.eof] []).count
        (Action.close Side.far) = 1
    ∧ ((handle [ReadEvent.eof] []).1 ++ forwarding_run [ReadEvent.eof] []).count
        (Action.close Side.near) = 1 :=
  c3_close_ownership [ReadEvent.eof] [ReadEvent.eof] [] [] (by decide) (by decide)

/-- C5: the far endpoint (`self.remote`) is created only after the near
endpoint's TLS handshake, its peer verification when `verify_client_identity`
is set, and its length-hiding capability check when
`use_length_hiding_with_client` is set, have all succeeded; failure of any of
these near-side steps leaves the setup aborted with no far endpoint created. -/
theorem c5_far_after_near (cfg : Config) (env : SetupEnv)
    (hmem : SetupEvent.createFarSession ∈ (setup cfg env).1) :
    env.near_handshake_ok = true
    ∧ (cfg.verify_client_identity = true → env.near_verify_ok = true)
    ∧ (cfg.use_length_hiding_with_client = true →
        env.session_can_use_length_hiding = true) := by
  rcases cfg with ⟨vci, ulhc, vsi, ulhs⟩
  rcases env with ⟨nh, nv, slh, so, co, fh, fv, rlh⟩
  cases nh with
  | false => simp [setup] at hmem
  | true =>
    cases vci <;> cases nv <;> cases ulhc <;> cases slh <;>
      simp_all [setup]

/-- C5 witness: with all checks configured and every step succeeding, the far
endpoint is created and the near-side preconditions hold. -/
theorem c5_far_after_near_witness :
    Mesona.SetupEnv.near_handshake_ok ⟨true, true, true, true, true, true, true, true⟩ = true
    ∧ (Mesona.Config.verify_client_identity ⟨true, true, true, true⟩ = true →
        Mesona.SetupEnv.near_verify_ok ⟨true, true, true, true, true, true, true, true⟩ = true)
    ∧ (Mesona.Config.use_length_hiding_with_client ⟨true, true, true, true⟩ = true →
        Mesona.SetupEnv.session_can_use_length_hiding
          ⟨true, true, true, true, true, true, true, true⟩ = true) :=
  c5_far_after_near ⟨true, true, true, true⟩ ⟨true, true, true, true, true, true, true, true⟩
    (by decide)

/-- C7: evaluation of `setup` at a failing input — every near-side step
succeeds, the far endpoint is created, and then the far handshake fails: the
sequence aborts, yet the trace contains no release of the far endpoint and no
release of the near endpoint, contradicting the claim that both are released
on this exit path. -/
theorem c7_no_release_on_far_abort :
    (setup ⟨false, false, false, false⟩ ⟨true, true, true, true, true, false, true, true⟩).2
      = true
    ∧ SetupEvent.createFarSession
        ∈ (setup ⟨false, false, false, false⟩
            ⟨true, true, true, true, true, false, true, true⟩).1
    ∧ SetupEvent.releaseFar
        ∉ (setup ⟨false, false, false, false⟩
            ⟨true, true, true, true, true, false, true, true⟩).1
    ∧ SetupEvent.releaseNear
        ∉ (setup ⟨false, false, false, false⟩
            ⟨true, true, true, true, true, false, true, true⟩).1 := by
  decide

/-- C8: a construction failure of one relay only removes that relay from the
started list, wherever it sits in the configuration order; every relay whose
construction succeeds is started; and the exit status is 1 if and only if
zero relays started. -/
theorem c8_listener_independence
    (pre post relays : List (Nat × Bool)) (k : Nat) :
    startup_loop (pre ++ (k, false) :: post) = startup_loop (pre ++ post)
    ∧ (main_exit_status relays = 1 ↔ startup_loop relays = [])
    ∧ (∀ j, (j, true) ∈ relays → j ∈ startup_loop relays) := by
  refine ⟨?_, ?_, ?_⟩
  · induction pre with
    | nil => simp [startup_loop]
    | cons hd tl ih =>
      rcases hd with ⟨key, ok⟩
      simp [startup_loop, ih]
  · unfold main_exit_status
    split
    · simp_all
    · simp_all
  · intro j
    induction relays with
    | nil => intro hj; simp at hj
    | cons hd tl ih =>
      intro hj
      rcases List.mem_cons.mp hj with hh | hh
      · subst hh
        simp [startup_loop]
      · have htail := ih hh
        rcases hd with ⟨key, ok⟩
        cases ok <;> simp [startup_loop, htail]

/-- C8 witness: with relay 1 constructible, relay 5 failing and relay 2
constructible, relays 1 and 2 start, relay 5 is skipped, and the exit status
is not 1. -/
theorem c8_listener_independence_witness :
    startup_loop ([(1, true)] ++ (5, false) :: [(2, true)])
      = startup_loop ([(1, true)] ++ [(2, true)])
    ∧ (main_exit_status [(1, true), (5, false), (2, true)] = 1
        ↔ startup_loop [(1, true), (5, false), (2, true)] = [])
    ∧ 1 ∈ startup_loop [(1, true), (5, false), (2, true)] := by
  have h := c8_listener_independence [(1, true)] [(2, true)]
    [(1, true), (5, false), (2, true)] 5
  exact ⟨h.1, h.2.1, h.2.2 1 (by decide)⟩

/-- Helper: Python endswith with a one-character pattern succeeds exactly on
the lists of the form `t ++ [c]`. -/
theorem pyendswith_iff (c : Char) (s : List Char) :
    pyendswith s c = true ↔ ∃ t, s = t ++ [c] := by
  constructor
  · intro hp
    unfold pyendswith at hp
    cases hl : s.getLast? with
    | none => rw [hl] at hp; simp at hp
    | some a =>
      rw [hl] at hp
      simp only [decide_eq_true_eq] at hp
      subst hp
      exact ⟨s.dropLast, (List.dropLast_append_getLast? a (by rw [hl]; rfl)).symm⟩
  · rintro ⟨t, rfl⟩
    unfold pyendswith
    rw [List.getLast?_concat]
    simp

/-- C9: the address family is chosen purely by the literal form of the host
string: `is_ipv6_address` holds exactly when the host is bracketed
(`'['` first and `']'` last), in which case `build_server_connection` dials
with family IPv6 and the brackets stripped; every other host string is dialed
as IPv4 unchanged; and `MITMServer` picks the listener's inbound family by
the same predicate. -/
theorem c9_address_family (host : List Char) (p : Nat) :
    (is_ipv6_address (host, p) = true ↔ ∃ mid, host = '[' :: (mid ++ [']']))
    ∧ (∀ mid, host = '[' :: (mid ++ [']']) →
        build_dial_plan (host, p) = ⟨true, mid⟩)
    ∧ (is_ipv6_address (host, p) = false →
        build_dial_plan (host, p) = ⟨false, host⟩)
    ∧ mitm_server_ipv6 (host, p) = is_ipv6_address (host, p) := by
  have hiff : is_ipv6_address (host, p) = true ↔ ∃ mid, host = '[' :: (mid ++ [']']) := by
    unfold is_ipv6_address
    rw [Bool.and_eq_true]
    constructor
    · rintro ⟨h1, h2⟩
      rcases (pyendswith_iff ']' host).mp h2 with ⟨t, rfl⟩
      cases t with
      | nil => simp [pystartswith] at h1
      | cons x t2 =>
        simp only [List.cons_append, pystartswith, decide_eq_true_eq] at h1
        subst h1
        exact ⟨t2, rfl⟩
    · rintro ⟨mid, rfl⟩
      refine ⟨by simp [pystartswith], ?_⟩
      rw [pyendswith_iff]
      exact ⟨'[' :: mid, by simp⟩
  refine ⟨hiff, ?_, ?_, ?_⟩
  · intro mid hm
    have htrue : is_ipv6_address (host, p) = true := hiff.mpr ⟨mid, hm⟩
    subst hm
    simp [build_dial_plan, htrue, List.dropLast_concat]
  · intro hf
    simp [build_dial_plan, hf]
  · unfold mitm_server_ipv6
    cases hx : is_ipv6_address (host, p) <;> simp

/-- C9 witness: the bracketed host `[::1]` is dialed as IPv6 with the
brackets stripped, and an unbracketed host is dialed as IPv4 unchanged. -/
theorem c9_address_family_witness :
    is_ipv6_address (['[', ':', ':', '1', ']'], 443) = true
    ∧ build_dial_plan (['[', ':', ':', '1', ']'], 443) = ⟨true, [':', ':', '1']⟩
    ∧ build_dial_plan (['a'], 80) = ⟨false, ['a']⟩ := by
  have h := c9_address_family ['[', ':', ':', '1', ']'] 443
  have h2 := c9_address_family ['a'] 80
  exact ⟨h.1.mpr ⟨[':', ':', '1'], rfl⟩,
    h.2.1 [':', ':', '1'] rfl,
    h2.2.2.1 (by decide)⟩

/-- C10: the ReaderError/WriterError wrapping applies only to the TLS
library's error type: any other exception raised by the source read or the
destination write propagates out of `MITMHandler.handle` unwrapped, matches
neither the ReaderError nor the WriterError clause, and no close-notify,
shutdown, or close is performed on either endpoint on that path. -/
theorem c10_unwrapped_exception (e : Exc) (rest : List ReadEvent)
    (ws : List (Option Exc)) (n : Nat) (hg : e ≠ Exc.gnutlsError) :
    wrap_reader e = e
    ∧ wrap_writer e = e
    ∧ (e ≠ Exc.readerError → e ≠ Exc.writerError →
        handle (ReadEvent.err e :: rest) ws = ([], some e)
        ∧ handle (ReadEvent.chunk n :: rest) (some e :: ws) = ([], some e)) := by
  have hr : wrap_reader e = e := by simp [wrap_reader, hg]
  have hw : wrap_writer e = e := by simp [wrap_writer, hg]
  refine ⟨hr, hw, ?_⟩
  intro h1 h2
  have hf1 : forward_loop (ReadEvent.err e :: rest) ws = FlowOutcome.raised e := by
    show FlowOutcome.raised (wrap_reader e) = FlowOutcome.raised e
    rw [hr]
  have hf2 : forward_loop (ReadEvent.chunk n :: rest) (some e :: ws)
      = FlowOutcome.raised e := by
    show FlowOutcome.raised (wrap_writer e) = FlowOutcome.raised e
    rw [hw]
  constructor
  · unfold handle
    rw [hf1]
    cases e with
    | gnutlsError => exact absurd rfl hg
    | readerError => exact absurd rfl h1
    | writerError => exact absurd rfl h2
    | runtimeError => rfl
    | otherError => rfl
  · unfold handle
    rw [hf2]
    cases e with
    | gnutlsError => exact absurd rfl hg
    | readerError => exact absurd rfl h1
    | writerError => exact absurd rfl h2
    | runtimeError => rfl
    | otherError => rfl

/-- C10 witness: a non-TLS-library exception from the read or the write
leaves `handle` with an empty teardown trace and the exception unwrapped. -/
theorem c10_unwrapped_exception_witness :
    wrap_reader Exc.otherError = Exc.otherError
    ∧ wrap_writer Exc.otherError = Exc.otherError
    ∧ handle [ReadEvent.err Exc.otherError] [] = ([], some Exc.otherError)
    ∧ handle [ReadEvent.chunk 4] [some Exc.otherError] = ([], some Exc.otherError) := by
  have h := c10_unwrapped_exception Exc.otherError [] [] 4 (by decide)
  have h2 := h.2.2 (by decide) (by decide)
  exact ⟨h.1, h.2.1, h2.1, h2.2⟩

end Mesona
